import Mathlib

/-!
# mgutil: a wrapper around the MongoDB Go driver

Shallow embedding of `src/mgutil/mgutil.go`.

The wrapper (`MongoClient`) forwards every call to the MongoDB driver.  The
driver is an external library, so it is a parameter of the embedding: a record
`Driver` of state-passing functions over an arbitrary driver state `σ`.  Go's
`error` is `Option E` (`none` is `nil`), a Go pair `(value, error)` returned by
the driver is `Except E value`, and a Go `interface{}` result that may be `nil`
is `Option R`.

Every wrapper method below is the Go method of the same name; `defer`red calls
are written out at each `return`, in reverse order of registration.
-/

namespace mgutil

/-! ## Cursors -/

/-- Modelled from the spec: the cursor type of the driver (`*mongo.Cursor`),
which is declared outside the repository; the spec calls it "a driver-provided
handle for iterating a result set incrementally" over "a finite,
non-restartable sequence".

* `pending`: the elements `Next` will still advance to, each paired with what
  `Decode` yields on it (`.ok d`: decodes to `d`, `.error e`: fails with `e`);
* `current`: what `Decode` yields at the current position;
* `failure`: why iteration stops after the pending elements (`none`: the
  result set is exhausted, `some e`: the cursor failed with `e`);
* `err`: what `Err()` reports;
* `closed`: whether `Close` was called. -/
structure Cursor (E D : Type) where
  pending : List (Except E D)
  current : Except E D
  failure : Option E
  err : Option E
  closed : Bool

namespace Cursor

variable {E D : Type}

/-- `cursor.Next(ctx)`: advance to the next element; `false` when iteration
stops, at which point the reason becomes visible through `Err`. -/
def Next (c : Cursor E D) : Bool × Cursor E D :=
  match c.pending with
  | [] => (false, { c with err := c.failure })
  | x :: xs => (true, { c with pending := xs, current := x })

/-- `cursor.Decode(&v)`: decode the element the cursor is positioned on. -/
def Decode (c : Cursor E D) : Except E D := c.current

/-- `cursor.Err()`. -/
def Err (c : Cursor E D) : Option E := c.err

/-- `cursor.Close(ctx)`. -/
def Close (c : Cursor E D) : Cursor E D := { c with closed := true }

end Cursor

/-- Modelled from the spec: the type `*mongo.SingleResult` of the driver,
declared outside the repository; it is the value `FindOne` returns and carries
the outcome its `Decode` method will give (a document, or an error such as
not-found). -/
structure SingleResult (E D : Type) where
  outcome : Except E D

/-- `(*SingleResult).Decode(result)`: on success the decoded document is stored
through the `result` pointer, on failure the pointee is left as it was. -/
def SingleResult.Decode {E D : Type} (sr : SingleResult E D) (result : D) : Option E × D :=
  match sr.outcome with
  | .ok d => (none, d)
  | .error e => (some e, result)

/-! ## The driver -/

/-- The part of the MongoDB driver the wrapper calls, as state-passing
functions over a driver state `σ`.  `E` is the type of errors, `D` of documents,
`F` of filters, `U` of update documents, `S` of sessions.  The first two
`String` arguments are the database and the collection name
(`client.Database(database).Collection(collection)`).  Result values that the
wrapper discards with `_` (`*InsertOneResult`, `*UpdateResult`, ...) are not
part of the record.  `emptyFilter` is the value `bson.M{}`. -/
structure Driver (σ E D F U S : Type) where
  emptyFilter : F
  insertOne : String → String → D → σ → Option E × σ
  findOne : String → String → F → σ → SingleResult E D × σ
  find : String → String → F → σ → Except E (Cursor E D) × σ
  updateOne : String → String → F → U → σ → Option E × σ
  deleteOne : String → String → F → σ → Option E × σ
  disconnect : σ → Option E × σ
  countDocuments : String → String → F → σ → Except E Int × σ
  collectionDrop : String → String → σ → Option E × σ
  databaseDrop : String → σ → Option E × σ
  listCollections : String → F → σ → Except E (Cursor E String) × σ
  insertMany : String → String → List D → σ → Option E × σ
  updateMany : String → String → F → U → σ → Option E × σ
  deleteMany : String → String → F → σ → Option E × σ
  startSession : σ → Except E S × σ
  startTransaction : S → σ → Option E × σ
  commitTransaction : S → σ → Option E × σ
  abortTransaction : S → σ → Option E × σ
  endSession : S → σ → σ

variable {σ E D F U S R : Type}

/-! ## The wrapper: single-call operations -/

/-- `MongoClient.Create` (mgutil.go:38). -/
def Create (mc : Driver σ E D F U S) (database collection : String) (document : D)
    (s : σ) : Option E × σ :=
  mc.insertOne database collection document s

/-- `MongoClient.Read` (mgutil.go:56).  `result` is the value behind the
caller's pointer; the second component of the answer is its value afterwards. -/
def Read (mc : Driver σ E D F U S) (database collection : String) (filter : F)
    (result : D) (s : σ) : (Option E × D) × σ :=
  let (sr, s1) := mc.findOne database collection filter s
  (sr.Decode result, s1)

/-- `MongoClient.Update` (mgutil.go:98). -/
def Update (mc : Driver σ E D F U S) (database collection : String) (filter : F)
    (update : U) (s : σ) : Option E × σ :=
  mc.updateOne database collection filter update s

/-- `MongoClient.Delete` (mgutil.go:107). -/
def Delete (mc : Driver σ E D F U S) (database collection : String) (filter : F)
    (s : σ) : Option E × σ :=
  mc.deleteOne database collection filter s

/-- `MongoClient.Close` (mgutil.go:114). -/
def Close (mc : Driver σ E D F U S) (s : σ) : Option E × σ :=
  mc.disconnect s

/-- `MongoClient.CountDocuments` (mgutil.go:118). -/
def CountDocuments (mc : Driver σ E D F U S) (database collection : String) (filter : F)
    (s : σ) : Except E Int × σ :=
  mc.countDocuments database collection filter s

/-- `MongoClient.DropCollection` (mgutil.go:130). -/
def DropCollection (mc : Driver σ E D F U S) (database collection : String)
    (s : σ) : Option E × σ :=
  mc.collectionDrop database collection s

/-- `MongoClient.DropDatabase` (mgutil.go:134). -/
def DropDatabase (mc : Driver σ E D F U S) (database : String) (s : σ) : Option E × σ :=
  mc.databaseDrop database s

/-- `MongoClient.InsertMany` (mgutil.go:166). -/
def InsertMany (mc : Driver σ E D F U S) (database collection : String)
    (documents : List D) (s : σ) : Option E × σ :=
  mc.insertMany database collection documents s

/-- `MongoClient.UpdateMany` (mgutil.go:172). -/
def UpdateMany (mc : Driver σ E D F U S) (database collection : String) (filter : F)
    (update : U) (s : σ) : Option E × σ :=
  mc.updateMany database collection filter update s

/-- `MongoClient.DeleteMany` (mgutil.go:178). -/
def DeleteMany (mc : Driver σ E D F U S) (database collection : String) (filter : F)
    (s : σ) : Option E × σ :=
  mc.deleteMany database collection filter s

/-! ## The wrapper: cursor loops -/

/-- What a call of `FindAll` leaves behind: the returned error, the contents of
the caller's `*results` slice, the cursor as the call left it (`none` when
`Find` failed and no cursor exists) and the driver state. -/
structure FindAllOut (σ E D : Type) where
  err : Option E
  results : List D
  cursor : Option (Cursor E D)
  state : σ

/-- The body of `FindAll` from the `for` loop on (mgutil.go:73-85), with the
deferred `cursor.Close` run at each `return`.  `fuel` bounds the number of
`Next` calls; `FindAll` supplies one more than the number of pending elements,
which is never used up (`findAllLoop_fuel`). -/
def findAllLoop (s : σ) : Nat → Cursor E D → List D → FindAllOut σ E D
  | 0, cursor, results => ⟨cursor.Err, results, some cursor.Close, s⟩
  | fuel + 1, cursor, results =>
    match cursor.Next with
    | (true, cursor1) =>
      match cursor1.Decode with
      | .error err => ⟨some err, results, some cursor1.Close, s⟩
      | .ok result => findAllLoop s fuel cursor1 (results ++ [result])
    | (false, cursor1) =>
      match cursor1.Err with
      | some err => ⟨some err, results, some cursor1.Close, s⟩
      | none => ⟨none, results, some cursor1.Close, s⟩

/-- `MongoClient.FindAll` (mgutil.go:65).  `results` is the slice behind the
caller's pointer when the call starts. -/
def FindAll (mc : Driver σ E D F U S) (database collection : String) (results : List D)
    (s : σ) : FindAllOut σ E D :=
  match mc.find database collection mc.emptyFilter s with
  | (.error err, s1) => ⟨some err, results, none, s1⟩
  | (.ok cursor, s1) => findAllLoop s1 (cursor.pending.length + 1) cursor results

/-- What a call of `ListCollections` leaves behind: the returned pair (a `nil`
slice is the empty list), the cursor as the call left it and the driver
state. -/
structure ListCollectionsOut (σ E : Type) where
  collections : List String
  err : Option E
  cursor : Option (Cursor E String)
  state : σ

/-- The `for` loop of `ListCollections` and the final `return`
(mgutil.go:150-158), with the deferred `cursor.Close` run at each `return`.
`fuel` is as in `findAllLoop`. -/
def listCollectionsLoop (s : σ) :
    Nat → Cursor E String → List String → ListCollectionsOut σ E
  | 0, cursor, collections => ⟨collections, none, some cursor.Close, s⟩
  | fuel + 1, cursor, collections =>
    match cursor.Next with
    | (true, cursor1) =>
      match cursor1.Decode with
      | .error err => ⟨[], some err, some cursor1.Close, s⟩
      | .ok collection => listCollectionsLoop s fuel cursor1 (collections ++ [collection])
    | (false, cursor1) => ⟨collections, none, some cursor1.Close, s⟩

/-- `MongoClient.ListCollections` (mgutil.go:142). -/
def ListCollections (mc : Driver σ E D F U S) (database : String) (s : σ) :
    ListCollectionsOut σ E :=
  match mc.listCollections database mc.emptyFilter s with
  | (.error err, s1) => ⟨[], some err, none, s1⟩
  | (.ok cursor, s1) => listCollectionsLoop s1 (cursor.pending.length + 1) cursor []

/-! ## The wrapper: transactions -/

/-- What a call of `RunTransaction` leaves behind: the returned pair, the lines
written by `fmt.Println` and the driver state. -/
structure TxOut (σ E R : Type) where
  result : Option R
  err : Option E
  printed : List E
  state : σ

/-- The two deferred calls of `RunTransaction`, run when the function body
returns `(result, err)` after `StartTransaction` succeeded: first the deferred
closure (mgutil.go:196-201), which commits and prints the error if there is
one, then `session.EndSession` (mgutil.go:189). -/
def runDeferred (mc : Driver σ E D F U S) (session : S) (result : Option R)
    (err : Option E) (s : σ) : TxOut σ E R :=
  match mc.commitTransaction session s with
  | (some err1, s1) => ⟨result, err, [err1], mc.endSession session s1⟩
  | (none, s1) => ⟨result, err, [], mc.endSession session s1⟩

/-- `MongoClient.RunTransaction` (mgutil.go:184).  The callback receives the
session (wrapped in a session context) and may act on the driver state.  In the
branch of a failed callback the Go code declares a new `err` for the result of
`AbortTransaction`; both `return nil, err` statements of that branch
(mgutil.go:207 and 209) read this inner variable, written `err1` here. -/
def RunTransaction (mc : Driver σ E D F U S) (_database : String)
    (callback : S → σ → (Option R × Option E) × σ) (s : σ) : TxOut σ E R :=
  match mc.startSession s with
  | (.error err, s1) => ⟨none, some err, [], s1⟩
  | (.ok session, s1) =>
    match mc.startTransaction session s1 with
    | (some err, s2) => ⟨none, some err, [], mc.endSession session s2⟩
    | (none, s2) =>
      match callback session s2 with
      | ((_, some _), s3) =>
        match mc.abortTransaction session s3 with
        | (some err1, s4) => runDeferred mc session none (some err1) s4
        | (none, s4) => runDeferred mc session none none s4
      | ((result, none), s3) =>
        match mc.commitTransaction session s3 with
        | (some err, s4) => runDeferred mc session none (some err) s4
        | (none, s4) => runDeferred mc session result none s4

/-! ## Observing the calls the wrapper makes -/

/-- One call received by the driver, with its arguments; `callback` marks an
invocation of the transaction callback with the given session. -/
inductive Event (D F U S : Type) where
  | insertOne (database collection : String) (document : D)
  | findOne (database collection : String) (filter : F)
  | find (database collection : String) (filter : F)
  | updateOne (database collection : String) (filter : F) (update : U)
  | deleteOne (database collection : String) (filter : F)
  | disconnect
  | countDocuments (database collection : String) (filter : F)
  | collectionDrop (database collection : String)
  | databaseDrop (database : String)
  | listCollections (database : String) (filter : F)
  | insertMany (database collection : String) (documents : List D)
  | updateMany (database collection : String) (filter : F) (update : U)
  | deleteMany (database collection : String) (filter : F)
  | startSession
  | startTransaction (session : S)
  | commitTransaction (session : S)
  | abortTransaction (session : S)
  | endSession (session : S)
  | callback (session : S)
  deriving DecidableEq

/-- Whether the event is a `CommitTransaction` call. -/
def Event.isCommit : Event D F U S → Bool
  | .commitTransaction _ => true
  | _ => false

/-- Whether the event is an `AbortTransaction` call. -/
def Event.isAbort : Event D F U S → Bool
  | .abortTransaction _ => true
  | _ => false

/-- Whether the event is an invocation of the transaction callback. -/
def Event.isCallback : Event D F U S → Bool
  | .callback _ => true
  | _ => false

/-- The events of a log that follow the first invocation of the callback. -/
def afterCallback : List (Event D F U S) → List (Event D F U S)
  | [] => []
  | ev :: evs => if ev.isCallback then evs else afterCallback evs

/-- Run a state-passing driver function and append `ev` to the log. -/
def logged {α : Type} (ev : Event D F U S) (f : σ → α × σ) :
    σ × List (Event D F U S) → α × (σ × List (Event D F U S)) :=
  fun st => ((f st.1).1, ((f st.1).2, st.2 ++ [ev]))

/-- The driver `mc` with a log: it answers and changes its state exactly as
`mc` does and records every call it receives, in order.  Running the wrapper
against `traced mc` shows which driver calls the wrapper makes. -/
def traced (mc : Driver σ E D F U S) : Driver (σ × List (Event D F U S)) E D F U S where
  emptyFilter := mc.emptyFilter
  insertOne := fun db c d => logged (.insertOne db c d) (mc.insertOne db c d)
  findOne := fun db c f => logged (.findOne db c f) (mc.findOne db c f)
  find := fun db c f => logged (.find db c f) (mc.find db c f)
  updateOne := fun db c f u => logged (.updateOne db c f u) (mc.updateOne db c f u)
  deleteOne := fun db c f => logged (.deleteOne db c f) (mc.deleteOne db c f)
  disconnect := logged .disconnect mc.disconnect
  countDocuments := fun db c f => logged (.countDocuments db c f) (mc.countDocuments db c f)
  collectionDrop := fun db c => logged (.collectionDrop db c) (mc.collectionDrop db c)
  databaseDrop := fun db => logged (.databaseDrop db) (mc.databaseDrop db)
  listCollections := fun db f => logged (.listCollections db f) (mc.listCollections db f)
  insertMany := fun db c ds => logged (.insertMany db c ds) (mc.insertMany db c ds)
  updateMany := fun db c f u => logged (.updateMany db c f u) (mc.updateMany db c f u)
  deleteMany := fun db c f => logged (.deleteMany db c f) (mc.deleteMany db c f)
  startSession := logged .startSession mc.startSession
  startTransaction := fun ss => logged (.startTransaction ss) (mc.startTransaction ss)
  commitTransaction := fun ss => logged (.commitTransaction ss) (mc.commitTransaction ss)
  abortTransaction := fun ss => logged (.abortTransaction ss) (mc.abortTransaction ss)
  endSession := fun ss st => (mc.endSession ss st.1, st.2 ++ [.endSession ss])

/-- A transaction callback with a log: it behaves as `callback` and records
its invocation. -/
def tracedCallback (callback : S → σ → (Option R × Option E) × σ) :
    S → σ × List (Event D F U S) → (Option R × Option E) × (σ × List (Event D F U S)) :=
  fun ss => logged (.callback ss) (callback ss)

/-! ## Concrete drivers -/

/-- The answers of a scripted driver. -/
structure Script (E D : Type) where
  findAnswer : Except E (Cursor E D)
  listAnswer : Except E (Cursor E String)
  sessionAnswer : Except E Nat
  startAnswer : Option E
  commitAnswer : Nat → Option E
  abortAnswer : Option E

/-- A driver that answers from a fixed script and counts in its state the
calls it received; the calls that are not scripted succeed, and the answer of
`CommitTransaction` may depend on the number of calls received before it.
Errors are strings, sessions are numbers, filters and updates carry no
information. -/
def scripted (sc : Script String D) (blank : D) : Driver Nat String D Unit Unit Nat where
  emptyFilter := ()
  insertOne := fun _ _ _ n => (none, n + 1)
  findOne := fun _ _ _ n => (⟨.ok blank⟩, n + 1)
  find := fun _ _ _ n => (sc.findAnswer, n + 1)
  updateOne := fun _ _ _ _ n => (none, n + 1)
  deleteOne := fun _ _ _ n => (none, n + 1)
  disconnect := fun n => (none, n + 1)
  countDocuments := fun _ _ _ n => (.ok 0, n + 1)
  collectionDrop := fun _ _ n => (none, n + 1)
  databaseDrop := fun _ n => (none, n + 1)
  listCollections := fun _ _ n => (sc.listAnswer, n + 1)
  insertMany := fun _ _ _ n => (none, n + 1)
  updateMany := fun _ _ _ _ n => (none, n + 1)
  deleteMany := fun _ _ _ n => (none, n + 1)
  startSession := fun n => (sc.sessionAnswer, n + 1)
  startTransaction := fun _ n => (sc.startAnswer, n + 1)
  commitTransaction := fun _ n => (sc.commitAnswer n, n + 1)
  abortTransaction := fun _ n => (sc.abortAnswer, n + 1)
  endSession := fun _ n => n + 1

/-- A cursor freshly returned by the driver: not closed, no error yet, and
positioned before its first element (where `Decode` yields `blank`). -/
def freshCursor (pending : List (Except E D)) (failure : Option E) (blank : Except E D) :
    Cursor E D :=
  ⟨pending, blank, failure, none, false⟩

/-- The script in which every call succeeds, every cursor is empty and the
session is number 7. -/
def allOk : Script String Nat :=
  ⟨.ok (freshCursor [] none (.ok 0)),
    .ok (freshCursor [] none (.error "cannot decode invalid into a string type")), .ok 7,
    none, fun _ => none, none⟩

/-- The driver in which every call succeeds. -/
def okDriver : Driver Nat String Nat Unit Unit Nat := scripted allOk 0

/-- A driver whose `Find` yields a cursor over three elements, the second of
which fails to decode. -/
def secondFails : Driver Nat String Nat Unit Unit Nat :=
  scripted { allOk with
    findAnswer := .ok (freshCursor [.ok 11, .error "decode", .ok 33] none (.ok 0)) } 0

/-- A driver whose `Find` yields a cursor over the documents 11, 22, 33. -/
def threeDocs : Driver Nat String Nat Unit Unit Nat :=
  scripted { allOk with
    findAnswer := .ok (freshCursor [.ok 11, .ok 22, .ok 33] none (.ok 0)) } 0

/-- A driver whose `ListCollections` call succeeds with a cursor that has no
element in its first batch and whose fetch of the next batch fails: the first
`Next` returns false and `Err()` then reports "cursor lost". -/
def listingBreaks : Driver Nat String Nat Unit Unit Nat :=
  scripted { allOk with
    listAnswer := .ok (freshCursor [] (some "cursor lost")
      (.error "cannot decode invalid into a string type")) } 0

/-- A driver whose listing cursor delivers one element, a collection document,
which `Decode` cannot store into a Go string. -/
def listingUndecodable : Driver Nat String Nat Unit Unit Nat :=
  scripted { allOk with
    listAnswer := .ok (freshCursor [.error "cannot decode document into a string type"] none
      (.error "cannot decode invalid into a string type")) } 0

/-- A callback that fails with "callback failed" and leaves the driver state
alone. -/
def failingCallback : Nat → Nat → (Option Nat × Option String) × Nat :=
  fun _ n => ((none, some "callback failed"), n)

/-- A callback that returns 42 and leaves the driver state alone. -/
def okCallback : Nat → Nat → (Option Nat × Option String) × Nat :=
  fun _ n => ((some 42, none), n)

/-- The driver in which `AbortTransaction` fails. -/
def abortFails : Driver Nat String Nat Unit Unit Nat :=
  scripted { allOk with abortAnswer := some "abort failed" } 0

/-- The driver in which every `CommitTransaction` fails. -/
def commitFails : Driver Nat String Nat Unit Unit Nat :=
  scripted { allOk with commitAnswer := fun _ => some "commit failed" } 0

/-- The driver in which `CommitTransaction` succeeds as the third call of the
session and fails as a later call. -/
def recommitFails : Driver Nat String Nat Unit Unit Nat :=
  scripted { allOk with
    commitAnswer := fun n => if n ≤ 2 then none else some "commit failed" } 0

/-- The driver in which `StartSession` fails. -/
def noSession : Driver Nat String Nat Unit Unit Nat :=
  scripted { allOk with sessionAnswer := .error "no session" } 0

/-- The driver in which `StartTransaction` fails. -/
def noTransaction : Driver Nat String Nat Unit Unit Nat :=
  scripted { allOk with startAnswer := some "no transaction" } 0

/-! ## The reference in-memory driver -/

/-- State of the in-memory driver: the collections, most recent version first,
each under its database and collection name. -/
abbrev MemState (D : Type) := List ((String × String) × List D)

/-- The documents of a collection (none if it was never written). -/
def docsOf (st : MemState D) (database collection : String) : List D :=
  match st with
  | [] => []
  | (key, docs) :: rest =>
    if key = (database, collection) then docs else docsOf rest database collection

/-- Replace the documents of a collection. -/
def setDocs (st : MemState D) (database collection : String) (docs : List D) : MemState D :=
  ((database, collection), docs) :: st

/-- Apply `update` to the first document that matches `filter`. -/
def updateFirst (filter : D → Bool) (update : D → D) : List D → List D
  | [] => []
  | d :: ds => if filter d then update d :: ds else d :: updateFirst filter update ds

/-- Modelled from the spec: the MongoDB driver itself, which is an external
library and not part of the repository.  This is the reference in-memory
driver: a collection is a list of documents, a
filter is a predicate on documents, an update is a function on documents.
`InsertOne` appends the document, `UpdateOne` updates the first match,
`DeleteOne` removes the first match, `CountDocuments` counts the matches and
no call fails except `FindOne` without a match.  Session calls succeed and
have no effect. -/
def memory (D : Type) : Driver (MemState D) String D (D → Bool) (D → D) Nat where
  emptyFilter := fun _ => true
  insertOne := fun db c d st => (none, setDocs st db c (docsOf st db c ++ [d]))
  findOne := fun db c f st =>
    (⟨match (docsOf st db c).find? f with
      | some d => .ok d
      | none => .error "mongo: no documents in result"⟩, st)
  find := fun db c f st =>
    (.ok (freshCursor (((docsOf st db c).filter f).map .ok) none
      (.error "cursor not positioned")), st)
  updateOne := fun db c f u st => (none, setDocs st db c (updateFirst f u (docsOf st db c)))
  deleteOne := fun db c f st => (none, setDocs st db c ((docsOf st db c).eraseP f))
  disconnect := fun st => (none, st)
  countDocuments := fun db c f st => (.ok ((docsOf st db c).countP f : Nat), st)
  collectionDrop := fun db c st => (none, setDocs st db c [])
  databaseDrop := fun db st => (none, st.filter fun entry => entry.1.1 ≠ db)
  listCollections := fun db _ st =>
    (.ok (freshCursor
      ((((st.filter fun entry => entry.1.1 = db).map fun entry => entry.1.2).eraseDups).map .ok)
      none (.error "cursor not positioned")), st)
  insertMany := fun db c ds st => (none, setDocs st db c (docsOf st db c ++ ds))
  updateMany := fun db c f u st =>
    (none, setDocs st db c ((docsOf st db c).map fun d => if f d then u d else d))
  deleteMany := fun db c f st =>
    (none, setDocs st db c ((docsOf st db c).filter fun d => !f d))
  startSession := fun st => (.ok 0, st)
  startTransaction := fun _ st => (none, st)
  commitTransaction := fun _ st => (none, st)
  abortTransaction := fun _ st => (none, st)
  endSession := fun _ st => st

/-- Documents of the test: lists of fields with string values. -/
abbrev Fields := List (String × String)

/-- The filter `{k: v}`: the field `k` has the value `v`. -/
def fieldIs (k v : String) : Fields → Bool :=
  fun d => d.lookup k == some v

/-- The update `{"$set": {k: v}}`: set the field `k` to `v`. -/
def setField (k v : String) : Fields → Fields :=
  fun d => (k, v) :: d.filter fun kv => kv.1 ≠ k

/-- The state the steps Create, Update, Delete of `TestMongoClient` leave when
started on an empty database. -/
def afterTestSteps : MemState Fields :=
  (Delete (memory Fields) "testDB" "testColl" (fieldIs "foo" "baz")
    (Update (memory Fields) "testDB" "testColl" (fieldIs "foo" "bar") (setField "foo" "baz")
      (Create (memory Fields) "testDB" "testColl" [("foo", "bar")] []).2).2).2

/-- A database whose collection "coll" holds the documents 1, 2, 3, 2. -/
def sampleState : MemState Nat := [(("db", "coll"), [1, 2, 3, 2])]

/-! ## Lemmas on the cursor loops -/

theorem Cursor.Next_nil (c : Cursor E D) (h : c.pending = []) :
    c.Next = (false, { c with err := c.failure }) := by
  simp [Cursor.Next, h]

theorem Cursor.Next_cons (c : Cursor E D) (x : Except E D) (xs : List (Except E D))
    (h : c.pending = x :: xs) :
    c.Next = (true, { c with pending := xs, current := x }) := by
  simp [Cursor.Next, h]

/-- While the pending elements decode, the loop of `FindAll` appends them to
the results in order and goes on with the elements that follow. -/
theorem findAllLoop_run (s : σ) (docs : List D) :
    ∀ (n : Nat) (c : Cursor E D) (results : List D) (rest : List (Except E D)),
      c.pending = docs.map Except.ok ++ rest →
      ∃ c1 : Cursor E D, c1.pending = rest ∧ c1.failure = c.failure ∧
        findAllLoop s (docs.length + n) c results = findAllLoop s n c1 (results ++ docs) := by
  induction docs with
  | nil =>
    intro n c results rest h
    exact ⟨c, by simpa using h, rfl, by simp⟩
  | cons d ds ih =>
    intro n c results rest h
    have hn : c.Next = (true, { c with pending := ds.map Except.ok ++ rest, current := .ok d }) :=
      Cursor.Next_cons c _ _ (by simpa using h)
    obtain ⟨c1, h1, h2, h3⟩ := ih n { c with pending := ds.map Except.ok ++ rest, current := .ok d }
      (results ++ [d]) rest rfl
    refine ⟨c1, h1, h2, ?_⟩
    have hl : (d :: ds).length + n = (ds.length + n) + 1 := by simp; omega
    rw [hl, findAllLoop, hn]
    simp only [Cursor.Decode]
    rw [h3]
    simp

/-- The same for the loop of `ListCollections`. -/
theorem listCollectionsLoop_run (s : σ) (names : List String) :
    ∀ (n : Nat) (c : Cursor E String) (acc : List String) (rest : List (Except E String)),
      c.pending = names.map Except.ok ++ rest →
      ∃ c1 : Cursor E String, c1.pending = rest ∧ c1.failure = c.failure ∧
        listCollectionsLoop s (names.length + n) c acc
          = listCollectionsLoop s n c1 (acc ++ names) := by
  induction names with
  | nil =>
    intro n c acc rest h
    exact ⟨c, by simpa using h, rfl, by simp⟩
  | cons d ds ih =>
    intro n c acc rest h
    have hn : c.Next = (true, { c with pending := ds.map Except.ok ++ rest, current := .ok d }) :=
      Cursor.Next_cons c _ _ (by simpa using h)
    obtain ⟨c1, h1, h2, h3⟩ := ih n { c with pending := ds.map Except.ok ++ rest, current := .ok d }
      (acc ++ [d]) rest rfl
    refine ⟨c1, h1, h2, ?_⟩
    have hl : (d :: ds).length + n = (ds.length + n) + 1 := by simp; omega
    rw [hl, listCollectionsLoop, hn]
    simp only [Cursor.Decode]
    rw [h3]
    simp

/-- Once the loop of `FindAll` meets an element that fails to decode it
returns that error, keeps what it appended so far and leaves the elements
after the failing one unread in the closed cursor. -/
theorem findAllLoop_decode_error (s : σ) (n : Nat) (c : Cursor E D) (results : List D)
    (e : E) (rest : List (Except E D)) (h : c.pending = .error e :: rest) :
    findAllLoop s (n + 1) c results
      = ⟨some e, results, some { c with pending := rest, current := .error e, closed := true }, s⟩ := by
  rw [findAllLoop, Cursor.Next_cons c _ _ h]
  simp [Cursor.Decode, Cursor.Close]

/-- Once no element is pending the loop of `FindAll` returns what `Err`
reports, which is the reason the cursor stopped. -/
theorem findAllLoop_end (s : σ) (n : Nat) (c : Cursor E D) (results : List D)
    (h : c.pending = []) :
    findAllLoop s (n + 1) c results
      = ⟨c.failure, results, some { c with err := c.failure, closed := true }, s⟩ := by
  rw [findAllLoop, Cursor.Next_nil c h]
  cases hf : c.failure <;> simp [Cursor.Err, Cursor.Close, hf]

/-- Once no element is pending the loop of `ListCollections` returns the names
with a nil error, whatever the reason the cursor stopped. -/
theorem listCollectionsLoop_end (s : σ) (n : Nat) (c : Cursor E String) (acc : List String)
    (h : c.pending = []) :
    listCollectionsLoop s (n + 1) c acc
      = ⟨acc, none, some { c with err := c.failure, closed := true }, s⟩ := by
  rw [listCollectionsLoop, Cursor.Next_nil c h]
  simp [Cursor.Close]

/-- The fuel `FindAll` supplies is never used up: more fuel gives the same
answer. -/
theorem findAllLoop_fuel (s : σ) (n : Nat) :
    ∀ (l : List (Except E D)) (c : Cursor E D) (results : List D), c.pending = l →
      findAllLoop s (l.length + 1 + n) c results = findAllLoop s (l.length + 1) c results := by
  intro l
  induction l with
  | nil =>
    intro c results h
    have h0 : ([] : List (Except E D)).length + 1 + n = n + 1 := by simp; omega
    rw [h0, findAllLoop_end s n c results h]
    exact (findAllLoop_end s 0 c results h).symm
  | cons x xs ih =>
    intro c results h
    have h0 : (x :: xs).length + 1 + n = (xs.length + 1 + n) + 1 := by simp; omega
    have h1 : (x :: xs).length + 1 = (xs.length + 1) + 1 := by simp
    rw [h0, h1, findAllLoop, findAllLoop, Cursor.Next_cons c x xs h]
    cases x with
    | error e => simp [Cursor.Decode]
    | ok d =>
      simp only [Cursor.Decode]
      exact ih _ _ rfl

/-- The fuel `ListCollections` supplies is never used up. -/
theorem listCollectionsLoop_fuel (s : σ) (n : Nat) :
    ∀ (l : List (Except E String)) (c : Cursor E String) (acc : List String), c.pending = l →
      listCollectionsLoop s (l.length + 1 + n) c acc
        = listCollectionsLoop s (l.length + 1) c acc := by
  intro l
  induction l with
  | nil =>
    intro c acc h
    have h0 : ([] : List (Except E String)).length + 1 + n = n + 1 := by simp; omega
    rw [h0, listCollectionsLoop_end s n c acc h]
    exact (listCollectionsLoop_end s 0 c acc h).symm
  | cons x xs ih =>
    intro c acc h
    have h0 : (x :: xs).length + 1 + n = (xs.length + 1 + n) + 1 := by simp; omega
    have h1 : (x :: xs).length + 1 = (xs.length + 1) + 1 := by simp
    rw [h0, h1, listCollectionsLoop, listCollectionsLoop, Cursor.Next_cons c x xs h]
    cases x with
    | error e => simp [Cursor.Decode]
    | ok d =>
      simp only [Cursor.Decode]
      exact ih _ _ rfl

/-- The loop of `FindAll` makes no driver call: the driver state it returns is
the one it was given. -/
theorem findAllLoop_state (s : σ) :
    ∀ (n : Nat) (c : Cursor E D) (results : List D), (findAllLoop s n c results).state = s := by
  intro n
  induction n with
  | zero => intro c results; rfl
  | succ n ih =>
    intro c results
    rw [findAllLoop]
    split
    · split
      · rfl
      · exact ih _ _
    · split <;> rfl

/-- The only driver call `FindAll` makes is `Find`, on the given database and
collection and with the empty filter. -/
theorem FindAll_calls (mc : Driver σ E D F U S) (database collection : String)
    (results : List D) (s : σ) (log : List (Event D F U S)) :
    (FindAll (traced mc) database collection results (s, log)).state.2
      = log ++ [.find database collection mc.emptyFilter] := by
  rw [FindAll]
  split
  · next err s1 h =>
    have := congrArg (fun q => q.2.2) h
    simpa [traced, logged] using this.symm
  · next cursor s1 h =>
    rw [findAllLoop_state]
    have := congrArg (fun q => q.2.2) h
    simpa [traced, logged] using this.symm

/-! ## FindAll -/

/-- C2, counterexample: the second of three documents fails to decode;
`FindAll`, called with an empty `*results`, returns the decode error but
`*results` now holds the first document: it is not equal to its value before
the call. -/
theorem FindAll_keeps_decoded_documents :
    (FindAll secondFails "db" "coll" [] 0).err = some "decode" ∧
      (FindAll secondFails "db" "coll" [] 0).results = [11] ∧
      (FindAll secondFails "db" "coll" [] 0).results ≠ [] := by
  decide

/-- C2, amended: when `Find` succeeds and the k-th element of the cursor is the
first that fails to decode (the `docs` before it decode, `e` is its error),
`FindAll` returns `e`, leaves the elements after the k-th unread in the cursor,
which it closes, and leaves in `*results` the previous contents followed by the
k-1 documents decoded before the failure, in cursor order. -/
theorem FindAll_decode_error (mc : Driver σ E D F U S) (database collection : String)
    (results : List D) (s s1 : σ) (c : Cursor E D) (docs : List D) (e : E)
    (rest : List (Except E D))
    (hfind : mc.find database collection mc.emptyFilter s = (.ok c, s1))
    (hpend : c.pending = docs.map Except.ok ++ .error e :: rest) :
    (FindAll mc database collection results s).err = some e ∧
      (FindAll mc database collection results s).results = results ++ docs ∧
      (∃ c1 : Cursor E D, (FindAll mc database collection results s).cursor = some c1 ∧
        c1.pending = rest ∧ c1.closed = true) ∧
      (FindAll mc database collection results s).state = s1 := by
  obtain ⟨c1, h1, _, h3⟩ := findAllLoop_run s1 docs (rest.length + 1 + 1) c results
    (.error e :: rest) hpend
  have hlen : c.pending.length + 1 = docs.length + (rest.length + 1 + 1) := by
    rw [hpend]; simp; omega
  have hout : FindAll mc database collection results s
      = ⟨some e, results ++ docs,
          some { c1 with pending := rest, current := .error e, closed := true }, s1⟩ := by
    rw [FindAll, hfind]
    simp only []
    rw [hlen, h3, findAllLoop_decode_error s1 (rest.length + 1) c1 (results ++ docs) e rest h1]
  rw [hout]
  exact ⟨rfl, rfl, ⟨_, rfl, rfl, rfl⟩, rfl⟩

/-- The amended statement on the driver whose second element fails to decode,
with `*results` holding the document 5 before the call. -/
theorem FindAll_decode_error_witness :
    (FindAll secondFails "db" "coll" [5] 0).err = some "decode" ∧
      (FindAll secondFails "db" "coll" [5] 0).results = [5] ++ [11] ∧
      (∃ c1 : Cursor String Nat, (FindAll secondFails "db" "coll" [5] 0).cursor = some c1 ∧
        c1.pending = [.ok 33] ∧ c1.closed = true) ∧
      (FindAll secondFails "db" "coll" [5] 0).state = 1 :=
  FindAll_decode_error secondFails "db" "coll" [5] 0 1
    (freshCursor [.ok 11, .error "decode", .ok 33] none (.ok 0)) [11] "decode" [.ok 33] rfl rfl

/-- C7: whenever `Find`, issued with the empty filter on the given database and
collection, succeeds, every element of the cursor decodes and the cursor ends
without error, `FindAll` returns nil and leaves `*results` equal to its
previous contents followed by the documents of the cursor in cursor order; in
particular, on an empty collection with `*results` initially empty the result
is the empty sequence and the error is nil.  The driver state is the one `Find`
left, and against the logging driver the only call logged is that `Find`. -/
theorem FindAll_all (mc : Driver σ E D F U S) (database collection : String)
    (results : List D) (s s1 : σ) (c : Cursor E D) (docs : List D)
    (hfind : mc.find database collection mc.emptyFilter s = (.ok c, s1))
    (hpend : c.pending = docs.map Except.ok) (hend : c.failure = none) :
    (FindAll mc database collection results s).err = none ∧
      (FindAll mc database collection results s).results = results ++ docs ∧
      (docs = [] → results = [] → (FindAll mc database collection results s).results = []) ∧
      (FindAll mc database collection results s).state = s1 ∧
      ∀ log : List (Event D F U S),
        (FindAll (traced mc) database collection results (s, log)).state.2
          = log ++ [.find database collection mc.emptyFilter] := by
  obtain ⟨c1, h1, h2, h3⟩ := findAllLoop_run s1 docs 1 c results [] (by simpa using hpend)
  have hlen : c.pending.length + 1 = docs.length + 1 := by rw [hpend]; simp
  have hout : FindAll mc database collection results s
      = ⟨none, results ++ docs, some { c1 with err := c1.failure, closed := true }, s1⟩ := by
    rw [FindAll, hfind]
    simp only []
    rw [hlen, h3, findAllLoop_end s1 0 c1 (results ++ docs) h1, h2, hend]
  rw [hout]
  refine ⟨rfl, rfl, ?_, rfl, FindAll_calls mc database collection results s⟩
  intro hd hr
  simp [hd, hr]

/-- A cursor over the documents 11, 22, 33 read into a slice holding 5, and an
empty collection read into an empty slice. -/
theorem FindAll_all_witness :
    ((FindAll threeDocs "db" "coll" [5] 0).err = none ∧
      (FindAll threeDocs "db" "coll" [5] 0).results = [5] ++ [11, 22, 33]) ∧
    ((FindAll okDriver "db" "coll" [] 0).err = none ∧
      (FindAll okDriver "db" "coll" [] 0).results = []) :=
  ⟨⟨(FindAll_all threeDocs "db" "coll" [5] 0 1
      (freshCursor [.ok 11, .ok 22, .ok 33] none (.ok 0)) [11, 22, 33] rfl rfl rfl).1,
    (FindAll_all threeDocs "db" "coll" [5] 0 1
      (freshCursor [.ok 11, .ok 22, .ok 33] none (.ok 0)) [11, 22, 33] rfl rfl rfl).2.1⟩,
   ⟨(FindAll_all okDriver "db" "coll" [] 0 1
      (freshCursor [] none (.ok 0)) [] rfl rfl rfl).1,
    (FindAll_all okDriver "db" "coll" [] 0 1
      (freshCursor [] none (.ok 0)) [] rfl rfl rfl).2.2.1 rfl rfl⟩⟩

/-- When the elements of the cursor decode and the cursor then stops, for
whatever reason, `ListCollections` returns the names read so far and a nil
error: `cursor.Err()` is not consulted. -/
theorem ListCollections_cursor_stop (mc : Driver σ E D F U S) (database : String) (s s1 : σ)
    (c : Cursor E String) (names : List String)
    (hlist : mc.listCollections database mc.emptyFilter s = (.ok c, s1))
    (hpend : c.pending = names.map Except.ok) :
    (ListCollections mc database s).collections = names ∧
      (ListCollections mc database s).err = none := by
  obtain ⟨c1, h1, _, h3⟩ := listCollectionsLoop_run s1 names 1 c [] [] (by simpa using hpend)
  have hlen : c.pending.length + 1 = names.length + 1 := by rw [hpend]; simp
  rw [ListCollections, hlist]
  simp only []
  rw [hlen, h3, listCollectionsLoop_end s1 0 c1 _ h1]
  simp

/-- When the elements of the cursor decode and the cursor then stops because
of an error, `FindAll` returns that error: it consults `cursor.Err()`. -/
theorem FindAll_cursor_stop (mc : Driver σ E D F U S) (database collection : String)
    (results : List D) (s s1 : σ) (c : Cursor E D) (docs : List D)
    (hfind : mc.find database collection mc.emptyFilter s = (.ok c, s1))
    (hpend : c.pending = docs.map Except.ok) :
    (FindAll mc database collection results s).err = c.failure := by
  obtain ⟨c1, h1, h2, h3⟩ := findAllLoop_run s1 docs 1 c results [] (by simpa using hpend)
  have hlen : c.pending.length + 1 = docs.length + 1 := by rw [hpend]; simp
  rw [FindAll, hfind]
  simp only []
  rw [hlen, h3, findAllLoop_end s1 0 c1 (results ++ docs) h1, h2]

/-- When the driver's `ListCollections` call fails, `ListCollections` returns
no name and the error of that call. -/
theorem ListCollections_call_error (mc : Driver σ E D F U S) (database : String) (s s1 : σ)
    (e : E) (hlist : mc.listCollections database mc.emptyFilter s = (.error e, s1)) :
    (ListCollections mc database s).collections = [] ∧
      (ListCollections mc database s).err = some e := by
  rw [ListCollections, hlist]
  exact ⟨rfl, rfl⟩

/-- When an element of the listing cursor fails to decode, `ListCollections`
returns no name and the decode error. -/
theorem ListCollections_decode_error (mc : Driver σ E D F U S) (database : String) (s s1 : σ)
    (c : Cursor E String) (names : List String) (e : E) (rest : List (Except E String))
    (hlist : mc.listCollections database mc.emptyFilter s = (.ok c, s1))
    (hpend : c.pending = names.map Except.ok ++ .error e :: rest) :
    (ListCollections mc database s).collections = [] ∧
      (ListCollections mc database s).err = some e := by
  obtain ⟨c1, h1, _, h3⟩ := listCollectionsLoop_run s1 names (rest.length + 1 + 1) c []
    (.error e :: rest) hpend
  have hlen : c.pending.length + 1 = names.length + (rest.length + 1 + 1) := by
    rw [hpend]; simp; omega
  rw [ListCollections, hlist]
  simp only []
  rw [hlen, h3, listCollectionsLoop, Cursor.Next_cons c1 _ _ h1]
  simp [Cursor.Decode]

/-- On the driver whose listing element is a document that does not decode
into a string, `ListCollections` returns no name and the decode error. -/
theorem ListCollections_undecodable :
    (ListCollections listingUndecodable "db" 0).collections = [] ∧
      (ListCollections listingUndecodable "db" 0).err
        = some "cannot decode document into a string type" := by
  decide

/-- C4, the code at the failing input: the driver's `ListCollections` call
succeeds, the first batch of the cursor is empty and the fetch made by the
first `Next` fails, so that `Next` returns false and `Err()` reports "cursor
lost"; `ListCollections` returns an empty name list with a nil error, although
the cursor it leaves behind reports the error through `Err()`. -/
theorem ListCollections_drops_cursor_error :
    (ListCollections listingBreaks "db" 0).collections = [] ∧
      (ListCollections listingBreaks "db" 0).err = none ∧
      (ListCollections listingBreaks "db" 0).cursor.map Cursor.Err
        = some (some "cursor lost") := by
  decide

/-! ## RunTransaction -/

/-- `RunTransaction` against the logging driver when `StartSession` fails. -/
theorem RunTransaction_traced_no_session (mc : Driver σ E D F U S) (database : String)
    (cb : S → σ → (Option R × Option E) × σ) (s s1 : σ) (log : List (Event D F U S)) (e : E)
    (h1 : mc.startSession s = (.error e, s1)) :
    RunTransaction (traced mc) database (tracedCallback cb) (s, log)
      = ⟨none, some e, [], (s1, log ++ [.startSession])⟩ := by
  simp [RunTransaction, traced, logged, h1]

/-- `RunTransaction` against the logging driver when `StartTransaction`
fails. -/
theorem RunTransaction_traced_no_transaction (mc : Driver σ E D F U S) (database : String)
    (cb : S → σ → (Option R × Option E) × σ) (s s1 s2 : σ) (log : List (Event D F U S))
    (sess : S) (e : E)
    (h1 : mc.startSession s = (.ok sess, s1))
    (h2 : mc.startTransaction sess s1 = (some e, s2)) :
    RunTransaction (traced mc) database (tracedCallback cb) (s, log)
      = ⟨none, some e, [],
          (mc.endSession sess s2,
            log ++ [.startSession, .startTransaction sess, .endSession sess])⟩ := by
  simp [RunTransaction, traced, logged, h1, h2]

/-- `RunTransaction` against the logging driver when the callback returns an
error: `a` is the answer of `AbortTransaction`, `c` that of the deferred
`CommitTransaction`. -/
theorem RunTransaction_traced_callback_error (mc : Driver σ E D F U S) (database : String)
    (cb : S → σ → (Option R × Option E) × σ) (s s1 s2 s3 s4 s5 : σ)
    (log : List (Event D F U S)) (sess : S) (r : Option R) (e : E) (a c : Option E)
    (h1 : mc.startSession s = (.ok sess, s1))
    (h2 : mc.startTransaction sess s1 = (none, s2))
    (h3 : cb sess s2 = ((r, some e), s3))
    (h4 : mc.abortTransaction sess s3 = (a, s4))
    (h5 : mc.commitTransaction sess s4 = (c, s5)) :
    RunTransaction (traced mc) database (tracedCallback cb) (s, log)
      = ⟨none, a, c.toList,
          (mc.endSession sess s5,
            log ++ [.startSession, .startTransaction sess, .callback sess,
              .abortTransaction sess, .commitTransaction sess, .endSession sess])⟩ := by
  cases a <;> cases c <;>
    simp [RunTransaction, runDeferred, traced, tracedCallback, logged, h1, h2, h3, h4, h5]

/-- `RunTransaction` against the logging driver when the callback succeeds:
`c1` is the answer of the `CommitTransaction` of the function body, `c2` that
of the deferred one. -/
theorem RunTransaction_traced_callback_ok (mc : Driver σ E D F U S) (database : String)
    (cb : S → σ → (Option R × Option E) × σ) (s s1 s2 s3 s4 s5 : σ)
    (log : List (Event D F U S)) (sess : S) (r : Option R) (c1 c2 : Option E)
    (h1 : mc.startSession s = (.ok sess, s1))
    (h2 : mc.startTransaction sess s1 = (none, s2))
    (h3 : cb sess s2 = ((r, none), s3))
    (h4 : mc.commitTransaction sess s3 = (c1, s4))
    (h5 : mc.commitTransaction sess s4 = (c2, s5)) :
    RunTransaction (traced mc) database (tracedCallback cb) (s, log)
      = ⟨if c1.isNone then r else none, c1, c2.toList,
          (mc.endSession sess s5,
            log ++ [.startSession, .startTransaction sess, .callback sess,
              .commitTransaction sess, .commitTransaction sess, .endSession sess])⟩ := by
  cases c1 <;> cases c2 <;>
    simp [RunTransaction, runDeferred, traced, tracedCallback, logged, h1, h2, h3, h4, h5]

/-- Whenever `StartSession`, `StartTransaction` and `AbortTransaction` succeed
and the callback returns an error, `RunTransaction` returns a nil result and a
nil error: the `err` it returns is the one declared for the abort. -/
theorem RunTransaction_callback_error_abort_ok (mc : Driver σ E D F U S)
    (database : String) (cb : S → σ → (Option R × Option E) × σ) (s s1 s2 s3 s4 : σ)
    (sess : S) (r : Option R) (e : E)
    (h1 : mc.startSession s = (.ok sess, s1))
    (h2 : mc.startTransaction sess s1 = (none, s2))
    (h3 : cb sess s2 = ((r, some e), s3))
    (h4 : mc.abortTransaction sess s3 = (none, s4)) :
    (RunTransaction mc database cb s).result = none ∧
      (RunTransaction mc database cb s).err = none := by
  simp only [RunTransaction, h1, h2, h3, h4, runDeferred]
  split <;> exact ⟨rfl, rfl⟩

/-- C1, the code at the failing input: every session call succeeds and the
callback fails with "callback failed"; `RunTransaction` returns a nil result
and a nil error, having called `AbortTransaction` after the callback. -/
theorem RunTransaction_loses_callback_error :
    (RunTransaction okDriver "db" failingCallback 0).result = none ∧
      (RunTransaction okDriver "db" failingCallback 0).err = none ∧
      (RunTransaction (traced okDriver) "db" (tracedCallback failingCallback) (0, [])).err
        = none ∧
      (RunTransaction (traced okDriver) "db" (tracedCallback failingCallback) (0, [])).state.2
        = [.startSession, .startTransaction 7, .callback 7, .abortTransaction 7,
            .commitTransaction 7, .endSession 7] := by
  decide

/-- C3, counterexample: every session call succeeds and the callback fails;
the session calls `RunTransaction` makes after the callback returns are
`AbortTransaction`, `CommitTransaction`, `EndSession`: they include a
`CommitTransaction` call. -/
theorem RunTransaction_commits_after_abort :
    afterCallback
        (RunTransaction (traced okDriver) "db" (tracedCallback failingCallback) (0, [])).state.2
        = [.abortTransaction 7, .commitTransaction 7, .endSession 7] ∧
      (afterCallback
        (RunTransaction (traced okDriver) "db" (tracedCallback failingCallback)
          (0, [])).state.2).any Event.isCommit = true := by
  decide

/-- C3, amended: when `StartSession` and `StartTransaction` succeed and the
callback returns an error, the commit of the function body is not executed and
the session calls made after the callback returns are exactly
`AbortTransaction`, then the one `CommitTransaction` of the deferred function,
then `EndSession`; the error of that commit is printed and not returned. -/
theorem RunTransaction_abort_then_deferred_commit (mc : Driver σ E D F U S)
    (database : String) (cb : S → σ → (Option R × Option E) × σ) (s s1 s2 s3 : σ)
    (log : List (Event D F U S)) (sess : S) (r : Option R) (e : E)
    (h1 : mc.startSession s = (.ok sess, s1))
    (h2 : mc.startTransaction sess s1 = (none, s2))
    (h3 : cb sess s2 = ((r, some e), s3)) :
    (RunTransaction (traced mc) database (tracedCallback cb) (s, log)).state.2
        = (log ++ [.startSession, .startTransaction sess, .callback sess])
          ++ [.abortTransaction sess, .commitTransaction sess, .endSession sess] ∧
      (RunTransaction (traced mc) database (tracedCallback cb) (s, log)).printed
        = (mc.commitTransaction sess (mc.abortTransaction sess s3).2).1.toList ∧
      (RunTransaction (traced mc) database (tracedCallback cb) (s, log)).err
        = (mc.abortTransaction sess s3).1 := by
  rw [RunTransaction_traced_callback_error mc database cb s s1 s2 s3 _ _ log sess r e _ _
    h1 h2 h3 rfl rfl]
  simp

/-- A failing callback on the driver whose commits fail: the abort succeeds,
the deferred commit follows it and its error is printed. -/
theorem RunTransaction_abort_then_deferred_commit_witness :
    (RunTransaction (traced commitFails) "db" (tracedCallback failingCallback) (0, [])).state.2
        = ([] ++ [.startSession, .startTransaction 7, .callback 7])
          ++ [.abortTransaction 7, .commitTransaction 7, .endSession 7] ∧
      (RunTransaction (traced commitFails) "db" (tracedCallback failingCallback) (0, [])).printed
        = ["commit failed"] ∧
      (RunTransaction (traced commitFails) "db" (tracedCallback failingCallback) (0, [])).err
        = none :=
  RunTransaction_abort_then_deferred_commit commitFails "db" failingCallback 0 1 2 2 [] 7
    none "callback failed" rfl rfl rfl

/-- C5: when `StartSession` and `StartTransaction` succeed and the callback
returns `(r, nil)`, `RunTransaction` returns `(r, nil)` if the
`CommitTransaction` made after the callback succeeds and `(nil, c)`, with `c`
the error of that commit, if it fails; the calls made are `StartSession`,
`StartTransaction`, the callback, two `CommitTransaction` and `EndSession`:
`AbortTransaction` is not among them. -/
theorem RunTransaction_commit_path (mc : Driver σ E D F U S)
    (database : String) (cb : S → σ → (Option R × Option E) × σ) (s s1 s2 s3 s4 : σ)
    (log : List (Event D F U S)) (sess : S) (r : Option R) (c1 : Option E)
    (h1 : mc.startSession s = (.ok sess, s1))
    (h2 : mc.startTransaction sess s1 = (none, s2))
    (h3 : cb sess s2 = ((r, none), s3))
    (h4 : mc.commitTransaction sess s3 = (c1, s4)) :
    (c1 = none →
        (RunTransaction (traced mc) database (tracedCallback cb) (s, log)).result = r ∧
        (RunTransaction (traced mc) database (tracedCallback cb) (s, log)).err = none) ∧
      (∀ c : E, c1 = some c →
        (RunTransaction (traced mc) database (tracedCallback cb) (s, log)).result = none ∧
        (RunTransaction (traced mc) database (tracedCallback cb) (s, log)).err = some c) ∧
      (∃ evs : List (Event D F U S),
        (RunTransaction (traced mc) database (tracedCallback cb) (s, log)).state.2 = log ++ evs ∧
        evs = [.startSession, .startTransaction sess, .callback sess,
          .commitTransaction sess, .commitTransaction sess, .endSession sess] ∧
        ∀ ev ∈ evs, ev.isAbort = false) := by
  rw [RunTransaction_traced_callback_ok mc database cb s s1 s2 s3 s4 _ log sess r c1 _
    h1 h2 h3 h4 rfl]
  refine ⟨?_, ?_, ?_⟩
  · intro h; subst h; exact ⟨rfl, rfl⟩
  · intro c h; subst h; exact ⟨rfl, rfl⟩
  · refine ⟨_, rfl, rfl, ?_⟩
    intro ev hev
    simp at hev
    rcases hev with h | h | h | h | h <;> subst h <;> rfl

/-- A callback returning 42 on the driver in which every call succeeds and on
the driver whose commits fail. -/
theorem RunTransaction_commit_path_witness :
    ((RunTransaction (traced okDriver) "db" (tracedCallback okCallback) (0, [])).result
        = some 42 ∧
      (RunTransaction (traced okDriver) "db" (tracedCallback okCallback) (0, [])).err = none) ∧
    ((RunTransaction (traced commitFails) "db" (tracedCallback okCallback) (0, [])).result
        = none ∧
      (RunTransaction (traced commitFails) "db" (tracedCallback okCallback) (0, [])).err
        = some "commit failed") :=
  ⟨(RunTransaction_commit_path okDriver "db" okCallback 0 1 2 2 3 [] 7 (some 42) none
      rfl rfl rfl rfl).1 rfl,
    (RunTransaction_commit_path commitFails "db" okCallback 0 1 2 2 3 [] 7 (some 42)
      (some "commit failed") rfl rfl rfl rfl).2.1 "commit failed" rfl⟩

/-- C6: when `StartSession` and `StartTransaction` succeed, the callback
returns a non-nil error and `AbortTransaction` fails with `a`,
`RunTransaction` returns `(nil, a)`. -/
theorem RunTransaction_abort_error (mc : Driver σ E D F U S)
    (database : String) (cb : S → σ → (Option R × Option E) × σ) (s s1 s2 s3 s4 : σ)
    (sess : S) (r : Option R) (e a : E)
    (h1 : mc.startSession s = (.ok sess, s1))
    (h2 : mc.startTransaction sess s1 = (none, s2))
    (h3 : cb sess s2 = ((r, some e), s3))
    (h4 : mc.abortTransaction sess s3 = (some a, s4)) :
    (RunTransaction mc database cb s).result = none ∧
      (RunTransaction mc database cb s).err = some a := by
  simp only [RunTransaction, h1, h2, h3, h4, runDeferred]
  split <;> exact ⟨rfl, rfl⟩

/-- A failing callback on the driver whose `AbortTransaction` fails. -/
theorem RunTransaction_abort_error_witness :
    (RunTransaction abortFails "db" failingCallback 0).result = none ∧
      (RunTransaction abortFails "db" failingCallback 0).err = some "abort failed" :=
  RunTransaction_abort_error abortFails "db" failingCallback 0 1 2 2 3 7 none
    "callback failed" "abort failed" rfl rfl rfl rfl

/-- C10: the deferred commit of `RunTransaction`.  Against the logging driver,
started with the log `log`:
* when `StartSession` fails the only call is `StartSession`;
* when `StartTransaction` fails the calls are `StartSession`,
  `StartTransaction`, `EndSession`;
* when the callback succeeds the calls are `StartSession`, `StartTransaction`,
  the callback, the `CommitTransaction` of the body, the deferred
  `CommitTransaction` and last `EndSession`, so that `CommitTransaction` is
  called exactly twice; the returned pair is fixed by the answer `c1` of the
  first commit (the result of the callback if `c1` is nil, else nil, with the
  error `c1`), and the answer `c2` of the deferred one is only printed;
* when the callback fails the calls are `StartSession`, `StartTransaction`,
  the callback, `AbortTransaction`, the deferred `CommitTransaction` and last
  `EndSession`, so that `CommitTransaction` is called exactly once; the
  returned pair is fixed by the answer `a` of the abort, and the answer `c` of
  the deferred commit is only printed. -/
theorem RunTransaction_deferred_commit (mc : Driver σ E D F U S) (database : String)
    (cb : S → σ → (Option R × Option E) × σ) (s : σ) (log : List (Event D F U S)) :
    (∀ (e : E) (s1 : σ), mc.startSession s = (.error e, s1) →
        (RunTransaction (traced mc) database (tracedCallback cb) (s, log)).state.2
          = log ++ [.startSession]) ∧
      (∀ (sess : S) (e : E) (s1 s2 : σ), mc.startSession s = (.ok sess, s1) →
        mc.startTransaction sess s1 = (some e, s2) →
        (RunTransaction (traced mc) database (tracedCallback cb) (s, log)).state.2
          = log ++ [.startSession, .startTransaction sess, .endSession sess]) ∧
      (∀ (sess : S) (r : Option R) (c1 c2 : Option E) (s1 s2 s3 s4 s5 : σ),
        mc.startSession s = (.ok sess, s1) → mc.startTransaction sess s1 = (none, s2) →
        cb sess s2 = ((r, none), s3) → mc.commitTransaction sess s3 = (c1, s4) →
        mc.commitTransaction sess s4 = (c2, s5) →
        (RunTransaction (traced mc) database (tracedCallback cb) (s, log)).state.2
          = log ++ [.startSession, .startTransaction sess, .callback sess,
              .commitTransaction sess, .commitTransaction sess, .endSession sess] ∧
        ((RunTransaction (traced mc) database (tracedCallback cb) (s, log)).state.2.drop
          log.length).countP Event.isCommit = 2 ∧
        (RunTransaction (traced mc) database (tracedCallback cb) (s, log)).printed
          = c2.toList ∧
        (RunTransaction (traced mc) database (tracedCallback cb) (s, log)).result
          = (if c1.isNone then r else none) ∧
        (RunTransaction (traced mc) database (tracedCallback cb) (s, log)).err = c1) ∧
      (∀ (sess : S) (r : Option R) (e : E) (a c : Option E) (s1 s2 s3 s4 s5 : σ),
        mc.startSession s = (.ok sess, s1) → mc.startTransaction sess s1 = (none, s2) →
        cb sess s2 = ((r, some e), s3) → mc.abortTransaction sess s3 = (a, s4) →
        mc.commitTransaction sess s4 = (c, s5) →
        (RunTransaction (traced mc) database (tracedCallback cb) (s, log)).state.2
          = log ++ [.startSession, .startTransaction sess, .callback sess,
              .abortTransaction sess, .commitTransaction sess, .endSession sess] ∧
        ((RunTransaction (traced mc) database (tracedCallback cb) (s, log)).state.2.drop
          log.length).countP Event.isCommit = 1 ∧
        (RunTransaction (traced mc) database (tracedCallback cb) (s, log)).printed
          = c.toList ∧
        (RunTransaction (traced mc) database (tracedCallback cb) (s, log)).result = none ∧
        (RunTransaction (traced mc) database (tracedCallback cb) (s, log)).err = a) := by
  refine ⟨?_, ?_, ?_, ?_⟩
  · intro e s1 h1
    rw [RunTransaction_traced_no_session mc database cb s s1 log e h1]
  · intro sess e s1 s2 h1 h2
    rw [RunTransaction_traced_no_transaction mc database cb s s1 s2 log sess e h1 h2]
  · intro sess r c1 c2 s1 s2 s3 s4 s5 h1 h2 h3 h4 h5
    rw [RunTransaction_traced_callback_ok mc database cb s s1 s2 s3 s4 s5 log sess r c1 c2
      h1 h2 h3 h4 h5]
    refine ⟨rfl, ?_, rfl, rfl, rfl⟩
    simp [List.countP_cons, Event.isCommit]
  · intro sess r e a c s1 s2 s3 s4 s5 h1 h2 h3 h4 h5
    rw [RunTransaction_traced_callback_error mc database cb s s1 s2 s3 s4 s5 log sess r e a c
      h1 h2 h3 h4 h5]
    refine ⟨rfl, ?_, rfl, rfl, rfl⟩
    simp [List.countP_cons, Event.isCommit]

/-- The four paths on concrete drivers: no session, no transaction, a
successful callback whose deferred commit fails, and a failing callback whose
deferred commit fails. -/
theorem RunTransaction_deferred_commit_witness :
    (RunTransaction (traced noSession) "db" (tracedCallback okCallback) (0, [])).state.2
        = [] ++ [.startSession] ∧
      (RunTransaction (traced noTransaction) "db" (tracedCallback okCallback) (0, [])).state.2
        = [] ++ [.startSession, .startTransaction 7, .endSession 7] ∧
      ((RunTransaction (traced recommitFails) "db" (tracedCallback okCallback) (0, [])).state.2
          = [] ++ [.startSession, .startTransaction 7, .callback 7,
              .commitTransaction 7, .commitTransaction 7, .endSession 7] ∧
        ((RunTransaction (traced recommitFails) "db" (tracedCallback okCallback)
          (0, [])).state.2.drop 0).countP Event.isCommit = 2 ∧
        (RunTransaction (traced recommitFails) "db" (tracedCallback okCallback) (0, [])).printed
          = ["commit failed"] ∧
        (RunTransaction (traced recommitFails) "db" (tracedCallback okCallback) (0, [])).result
          = some 42 ∧
        (RunTransaction (traced recommitFails) "db" (tracedCallback okCallback) (0, [])).err
          = none) ∧
      ((RunTransaction (traced commitFails) "db" (tracedCallback failingCallback)
          (0, [])).state.2
          = [] ++ [.startSession, .startTransaction 7, .callback 7,
              .abortTransaction 7, .commitTransaction 7, .endSession 7] ∧
        ((RunTransaction (traced commitFails) "db" (tracedCallback failingCallback)
          (0, [])).state.2.drop 0).countP Event.isCommit = 1 ∧
        (RunTransaction (traced commitFails) "db" (tracedCallback failingCallback)
          (0, [])).printed = ["commit failed"] ∧
        (RunTransaction (traced commitFails) "db" (tracedCallback failingCallback)
          (0, [])).result = none ∧
        (RunTransaction (traced commitFails) "db" (tracedCallback failingCallback)
          (0, [])).err = none) :=
  ⟨(RunTransaction_deferred_commit noSession "db" okCallback 0 []).1 "no session" 1 rfl,
    (RunTransaction_deferred_commit noTransaction "db" okCallback 0 []).2.1
      7 "no transaction" 1 2 rfl rfl,
    (RunTransaction_deferred_commit recommitFails "db" okCallback 0 []).2.2.1
      7 (some 42) none (some "commit failed") 1 2 2 3 4 rfl rfl rfl rfl rfl,
    (RunTransaction_deferred_commit commitFails "db" failingCallback 0 []).2.2.2
      7 none "callback failed" none (some "commit failed") 1 2 2 3 4 rfl rfl rfl rfl rfl⟩

theorem docsOf_setDocs_same (st : MemState D) (database collection : String) (docs : List D) :
    docsOf (setDocs st database collection docs) database collection = docs := by
  simp [setDocs, docsOf]

theorem docsOf_setDocs_other (st : MemState D) (database collection db c : String)
    (docs : List D) (h : (database, collection) ≠ (db, c)) :
    docsOf (setDocs st database collection docs) db c = docsOf st db c := by
  rw [setDocs, docsOf, if_neg h]

/-! ## Single-call operations and the in-memory driver -/

/-- C8: each single-call operation makes exactly one driver call, on the named
database and collection and with the arguments of the caller unchanged, and
returns exactly the error of that call.  Against the logging driver over any
driver `mc`, started in state `s` with the log `log`, each of `Create`, `Read`,
`Update`, `Delete`, `InsertMany`, `UpdateMany`, `DeleteMany`, `DropCollection`,
`DropDatabase` and `Close` returns what the one call of `mc` (`InsertOne`,
`FindOne` followed by `Decode`, `UpdateOne`, `DeleteOne`, `InsertMany`,
`UpdateMany`, `DeleteMany`, `Drop`, `Drop`, `Disconnect`) returns, leaves the
state that call leaves, and adds that one call to the log. -/
theorem single_call_operations (mc : Driver σ E D F U S) (database collection : String)
    (document result : D) (documents : List D) (filter : F) (update : U) (s : σ)
    (log : List (Event D F U S)) :
    Create (traced mc) database collection document (s, log)
        = ((mc.insertOne database collection document s).1,
            ((mc.insertOne database collection document s).2,
              log ++ [.insertOne database collection document])) ∧
      Read (traced mc) database collection filter result (s, log)
        = ((mc.findOne database collection filter s).1.Decode result,
            ((mc.findOne database collection filter s).2,
              log ++ [.findOne database collection filter])) ∧
      Update (traced mc) database collection filter update (s, log)
        = ((mc.updateOne database collection filter update s).1,
            ((mc.updateOne database collection filter update s).2,
              log ++ [.updateOne database collection filter update])) ∧
      Delete (traced mc) database collection filter (s, log)
        = ((mc.deleteOne database collection filter s).1,
            ((mc.deleteOne database collection filter s).2,
              log ++ [.deleteOne database collection filter])) ∧
      InsertMany (traced mc) database collection documents (s, log)
        = ((mc.insertMany database collection documents s).1,
            ((mc.insertMany database collection documents s).2,
              log ++ [.insertMany database collection documents])) ∧
      UpdateMany (traced mc) database collection filter update (s, log)
        = ((mc.updateMany database collection filter update s).1,
            ((mc.updateMany database collection filter update s).2,
              log ++ [.updateMany database collection filter update])) ∧
      DeleteMany (traced mc) database collection filter (s, log)
        = ((mc.deleteMany database collection filter s).1,
            ((mc.deleteMany database collection filter s).2,
              log ++ [.deleteMany database collection filter])) ∧
      DropCollection (traced mc) database collection (s, log)
        = ((mc.collectionDrop database collection s).1,
            ((mc.collectionDrop database collection s).2,
              log ++ [.collectionDrop database collection])) ∧
      DropDatabase (traced mc) database (s, log)
        = ((mc.databaseDrop database s).1,
            ((mc.databaseDrop database s).2, log ++ [.databaseDrop database])) ∧
      Close (traced mc) (s, log)
        = ((mc.disconnect s).1, ((mc.disconnect s).2, log ++ [.disconnect])) := by
  refine ⟨rfl, rfl, rfl, rfl, rfl, rfl, rfl, rfl, rfl, rfl⟩

/-- C9: over the reference in-memory driver, `Delete` succeeds and
* if some document of the collection matches the filter, the first match is
  removed and every other document of the collection stays, in order, so that
  `CountDocuments` with the same filter gives exactly one less than before;
* if no document matches, the documents and the count stay as they were;
* the documents of every other collection stay as they were;
* after the steps of the test (Create foo=bar, Update to foo=baz, Delete
  foo=baz, on an empty database) `CountDocuments` with the empty filter is 0. -/
theorem Delete_removes_exactly_one (st : MemState D) (database collection : String)
    (filter : D → Bool) :
    (Delete (memory D) database collection filter st).1 = none ∧
      ((∃ d ∈ docsOf st database collection, filter d = true) →
        (∃ (l1 : List D) (x : D) (l2 : List D),
          docsOf st database collection = l1 ++ x :: l2 ∧
          (∀ y ∈ l1, filter y = false) ∧ filter x = true ∧
          docsOf (Delete (memory D) database collection filter st).2 database collection
            = l1 ++ l2) ∧
        ∃ n : Int, (CountDocuments (memory D) database collection filter st).1 = .ok n ∧
          (CountDocuments (memory D) database collection filter
            (Delete (memory D) database collection filter st).2).1 = .ok (n - 1)) ∧
      ((∀ d ∈ docsOf st database collection, filter d = false) →
        docsOf (Delete (memory D) database collection filter st).2 database collection
            = docsOf st database collection ∧
          (CountDocuments (memory D) database collection filter
            (Delete (memory D) database collection filter st).2).1
            = (CountDocuments (memory D) database collection filter st).1) ∧
      (∀ db c : String, (database, collection) ≠ (db, c) →
        docsOf (Delete (memory D) database collection filter st).2 db c = docsOf st db c) ∧
      (CountDocuments (memory Fields) "testDB" "testColl" (memory Fields).emptyFilter
        afterTestSteps).1 = .ok 0 := by
  have hdel : (Delete (memory D) database collection filter st).2
      = setDocs st database collection ((docsOf st database collection).eraseP filter) := rfl
  refine ⟨rfl, ?_, ?_, ?_, ?_⟩
  · rintro ⟨d, hd, hfd⟩
    obtain ⟨x, l1, l2, hl1, hx, hsplit, herase⟩ :=
      List.exists_of_eraseP hd hfd
    refine ⟨⟨l1, x, l2, hsplit, ?_, hx, ?_⟩, ?_⟩
    · intro y hy
      simpa using hl1 y hy
    · rw [hdel, docsOf_setDocs_same, herase]
    · refine ⟨((docsOf st database collection).countP filter : Nat), rfl, ?_⟩
      rw [hdel]
      simp only [CountDocuments, memory, docsOf_setDocs_same]
      rw [herase, hsplit]
      simp [List.countP_append, List.countP_cons, hx]
      omega
  · intro hnone
    have herase : (docsOf st database collection).eraseP filter
        = docsOf st database collection :=
      List.eraseP_of_forall_not (fun a ha => by simp [hnone a ha])
    rw [hdel]
    simp only [CountDocuments, memory, docsOf_setDocs_same, herase]
    exact ⟨trivial, trivial⟩
  · intro db c hne
    rw [hdel, docsOf_setDocs_other _ _ _ _ _ _ hne]
  · rfl

/-- The collection 1, 2, 3, 2 with the filter "is 2" (two matches) and with
the filter "is 9" (no match). -/
theorem Delete_removes_exactly_one_witness :
    (∃ d ∈ docsOf sampleState "db" "coll", (fun n : Nat => n == 2) d = true) ∧
      (∃ n : Int,
        (CountDocuments (memory Nat) "db" "coll" (fun n => n == 2) sampleState).1 = .ok n ∧
        (CountDocuments (memory Nat) "db" "coll" (fun n => n == 2)
          (Delete (memory Nat) "db" "coll" (fun n => n == 2) sampleState).2).1
          = .ok (n - 1)) ∧
      (∀ d ∈ docsOf sampleState "db" "coll", (fun n : Nat => n == 9) d = false) ∧
      docsOf (Delete (memory Nat) "db" "coll" (fun n => n == 9) sampleState).2 "db" "coll"
        = docsOf sampleState "db" "coll" :=
  ⟨⟨2, by decide, rfl⟩,
    ((Delete_removes_exactly_one sampleState "db" "coll" (fun n => n == 2)).2.1
      ⟨2, by decide, rfl⟩).2,
    by decide,
    ((Delete_removes_exactly_one sampleState "db" "coll" (fun n => n == 9)).2.2.1
      (by decide)).1⟩

end mgutil
